import Mathlib

/-!
The `wsk api` commands (`tools/cli/go-whisk-cli/commands/api.go`).

A shallow embedding of the verb validator `IsValidApiVerb`, the request
builder `parseApi` and the five command handlers of `api.go`, followed by the
properties proved about them.

What `api.go` imports but does not define is kept abstract:

* the verb table `whisk.ApiVerbs`, Go's `strings.ToUpper` and `fmt.Sprintf`,
  the message renderer `wski18n.T` and the `parseQualifiedName` helper are
  the fields of `Platform`;
* the Resource Client `client.Apis` is the structure `Client`, one response
  function per remote operation;
* an error value is the record of the constructor call that made it.

Every function returns, next to its Go results, the list of calls it made to
its collaborators, in order.
-/

namespace Whisk

/-! ## Data model -/

/-- Modelled from the spec: the exit-code constants `whisk.EXITCODE_ERR_GENERAL`
and `whisk.EXITCODE_ERR_NETWORK` are declared in `go-whisk/whisk`; the spec
names the two classes (general validation versus network) and keeps them
apart. -/
inductive ExitCode where
  | EXITCODE_ERR_GENERAL
  | EXITCODE_ERR_NETWORK
  deriving DecidableEq, Repr

/-- Modelled from the spec: `whisk.DISPLAY_MSG`, declared in `go-whisk/whisk`;
the flag that asks for the message to be shown. -/
def DISPLAY_MSG : Bool := true

/-- Modelled from the spec: `whisk.DISPLAY_USAGE`, declared in `go-whisk/whisk`;
the flag that asks for the command usage to be shown. -/
def DISPLAY_USAGE : Bool := true

/-- Modelled from the spec: `whisk.NO_DISPLAY_USAGE`, declared in
`go-whisk/whisk`; the flag that asks for the command usage not to be shown. -/
def NO_DISPLAY_USAGE : Bool := false

/-- Modelled from the spec: a Go `error` value. `whisk.MakeWskError` and
`whisk.MakeWskErrorFromWskError` are defined in `go-whisk/whisk`; the spec
describes the error they build as carrying a user message, a nullable
underlying cause, an exit-code class and a usage-display flag. An error is
recorded here as the call that constructed it, `errMsg` being the text given
to `errors.New`; `foreign` stands for an error made outside `api.go`. A nil
`error` is `none : Option GoError`. -/
inductive GoError where
  | foreign (text : String)
  | MakeWskError (errMsg : String) (exitCode : ExitCode) (displayMsg displayUsage : Bool)
  | MakeWskErrorFromWskError (errMsg : String) (whiskError : Option GoError)
      (exitCode : ExitCode) (displayMsg displayUsage : Bool)

/-- A value bound to a placeholder of a message template
(`map[string]interface{}`): a string, the keys of the verb table, or an
error. -/
inductive Value where
  | str (s : String)
  | keys (ks : List String)
  | err (e : Option GoError)

/-- The exit-code class an error was constructed with; none for an error made
outside `api.go`. -/
def GoError.exitCode : GoError → Option ExitCode
  | .foreign _ => none
  | .MakeWskError _ c _ _ => some c
  | .MakeWskErrorFromWskError _ _ c _ _ => some c

/-- The usage-display flag an error was constructed with. -/
def GoError.displayUsage : GoError → Option Bool
  | .foreign _ => none
  | .MakeWskError _ _ _ u => some u
  | .MakeWskErrorFromWskError _ _ _ _ u => some u

/-- The message text an error was constructed with. -/
def GoError.message : GoError → Option String
  | .foreign _ => none
  | .MakeWskError m _ _ _ => some m
  | .MakeWskErrorFromWskError m _ _ _ _ => some m

/-- The `qualifiedName` struct of the commands package, with the two fields
`api.go` reads. -/
structure qualifiedName where
  namespace_ : String
  entityName : String
  deriving DecidableEq, Repr

/-- The parts of the platform `api.go` uses without defining them. -/
structure Platform where
  /-- The keys of the map `whisk.ApiVerbs`, in the order reflection lists them. -/
  ApiVerbs : List String
  /-- Go's `strings.ToUpper`. -/
  ToUpper : String → String
  /-- The renderer `wski18n.T`: message id and bindings to text. -/
  T : String → List (String × Value) → String
  /-- Go's `fmt.Sprintf` called with a format and no operand. -/
  Sprintf : String → String
  /-- The helper `parseQualifiedName`, returning `(qName, err)`. -/
  parseQualifiedName : String → qualifiedName × Option GoError

/-- The struct `whisk.ApiAction`, with the fields `api.go` assigns. -/
structure ApiAction where
  Name : String
  Namespace : String
  BackendMethod : String
  BackendUrl : String
  Auth : String
  deriving DecidableEq, Repr

/-- The struct `whisk.Api`, with the fields `api.go` assigns or reads.
`Action` is the value behind the pointer `api.Action`. -/
structure Api where
  Namespace : String
  ApiName : String
  GatewayBasePath : String
  GatewayRelPath : String
  GatewayMethod : String
  Id : String
  GatewayFullPath : String
  Action : ApiAction
  deriving DecidableEq, Repr

/-- The struct `whisk.ApiOptions`, fields in the order of the literal in
`apiListCmd`. -/
structure ApiOptions where
  action : String
  path : String
  verb : String
  deriving DecidableEq, Repr

/-- The struct `whisk.ApiListOptions`, fields in the order of the literal in
`apiListCmd`. -/
structure ApiListOptions where
  options : ApiOptions
  limit : Int
  skip : Int
  docs : Bool
  deriving DecidableEq, Repr

/-- The flag group `flags.api`. -/
structure ApiFlags where
  action : String
  path : String
  verb : String
  apiname : String
  basepath : String
  deriving DecidableEq, Repr

/-- The flag group `flags.common`, with the fields `api.go` reads. -/
structure CommonFlags where
  summary : Bool
  limit : Int
  skip : Int
  deriving DecidableEq, Repr

/-- The package-level variable `flags`. -/
structure Flags where
  api : ApiFlags
  common : CommonFlags
  deriving DecidableEq, Repr

/-- The struct behind `client.Config`, with the fields `api.go` reads. -/
structure Config where
  Namespace : String
  Host : String
  AuthToken : String
  deriving DecidableEq, Repr

/-- The service `client.Apis`: what each remote operation answers. The HTTP
response, which every handler discards, is left out. -/
structure ApiService where
  Insert : Api → Bool → Api × Option GoError
  Get : Api → Api × Option GoError
  Delete : Api → Option GoError
  List : ApiListOptions → List Api × Option GoError

/-- The package-level variable `client`. -/
structure Client where
  Config : Config
  Apis : ApiService

/-- A call made to a collaborator: the qualified-name parser, the Resource
Client, or the output routines. `Fprintf` carries the format handed to
`fmt.Fprintf`, which is called with no operand. Diagnostic logging
(`whisk.Debug`) and the colour and bold decoration of printed words are left
out. -/
inductive Event where
  | parseQualifiedName (name : String)
  | Insert (api : Api) (overwrite : Bool)
  | Get (api : Api)
  | Delete (api : Api)
  | List (options : ApiListOptions)
  | Fprintf (format : String)
  | printSummary (api : Api)
  | printJSON (api : Api)
  | printList (apis : List Api)

/-- Whether an event is a call of the Resource Client. -/
def Event.isClientCall : Event → Bool
  | .Insert _ _ => true
  | .Get _ => true
  | .Delete _ => true
  | .List _ => true
  | _ => false

/-! ## The verb validator and the request builder -/

/-- `IsValidApiVerb`: looks `strings.ToUpper(verb)` up in `whisk.ApiVerbs` and
returns `(error, bool)`. -/
def IsValidApiVerb (P : Platform) (verb : String) : Option GoError × Bool :=
  if P.ToUpper verb ∈ P.ApiVerbs then
    (none, true)
  else
    (some (GoError.MakeWskError
        (P.Sprintf (P.T "'{{.verb}}' is not a valid API verb.  Valid values are: {{.verbs}}"
          [("verb", Value.str verb), ("verbs", Value.keys P.ApiVerbs)]))
        ExitCode.EXITCODE_ERR_GENERAL DISPLAY_MSG DISPLAY_USAGE),
     false)

/-- The block of `parseApi` that resolves the action name: the zero
`qualifiedName` unless there are exactly three arguments, else what the parser
returns for `args[2]`, refused when the parser fails or the entity name is
empty. Returns the parser calls made and the name or the error. -/
def parseApi.qName (P : Platform) (args : List String) :
    Option (List Event × (qualifiedName ⊕ GoError)) :=
  if args.length = 3 then
    match args[2]? with
    | none => none
    | some name =>
      match P.parseQualifiedName name with
      | (_, some err) =>
        some ([Event.parseQualifiedName name],
          Sum.inr (GoError.MakeWskErrorFromWskError
            (P.Sprintf (P.T "''{{.name}}' is not a valid action name: {{.err}}"
              [("name", Value.str name), ("err", Value.err (some err))]))
            (some err) ExitCode.EXITCODE_ERR_GENERAL DISPLAY_MSG DISPLAY_USAGE))
      | (qName, none) =>
        if qName.entityName = "" then
          some ([Event.parseQualifiedName name],
            Sum.inr (GoError.MakeWskErrorFromWskError
              (P.Sprintf (P.T "'{{.name}}' is not a valid action name."
                [("name", Value.str name)]))
              none ExitCode.EXITCODE_ERR_GENERAL DISPLAY_MSG DISPLAY_USAGE))
        else
          some ([Event.parseQualifiedName name], Sum.inl qName)
  else
    some ([], Sum.inl { namespace_ := "", entityName := "" })

/-- `parseApi`: builds the `whisk.Api` for `args = [path, verb]` or
`[path, verb, action]` from the flags and the client configuration. The
result is `none` when the Go code would stop on an index out of range, and
otherwise the collaborator calls made, in order, with the pair
`(*whisk.Api, error)`. -/
def parseApi (P : Platform) (flags : Flags) (client : Client) (args : List String) :
    Option (List Event × Option Api × Option GoError) :=
  match args[1]? with
  | none => none
  | some verb =>
    if (IsValidApiVerb P verb).2 = false then
      some ([], none, (IsValidApiVerb P verb).1)
    else
      match parseApi.qName P args with
      | none => none
      | some (calls, Sum.inr whiskErr) => some (calls, none, some whiskErr)
      | some (calls, Sum.inl qName) =>
        let apiname := if flags.api.apiname.length > 0 then flags.api.apiname else "/"
        let basepath := if flags.api.basepath.length > 0 then flags.api.basepath else "/"
        match args[0]? with
        | none => none
        | some path =>
          some (calls,
            some {
              Namespace := client.Config.Namespace
              GatewayRelPath := path
              GatewayMethod := P.ToUpper verb
              Action := {
                BackendUrl := "https://" ++ client.Config.Host ++ "/api/v1/namespaces/"
                  ++ qName.namespace_ ++ "/actions/" ++ qName.entityName ++ "?blocking=true"
                BackendMethod := "POST"
                Name := qName.entityName
                Namespace := qName.namespace_
                Auth := client.Config.AuthToken }
              ApiName := apiname
              GatewayBasePath := basepath
              Id := client.Config.Namespace ++ ":" ++ basepath
              GatewayFullPath := "" },
            none)

/-- The resource `parseApi` assembles from the path, the verb and the resolved
action name. -/
def builtApi (P : Platform) (flags : Flags) (client : Client) (path verb : String)
    (q : qualifiedName) : Api :=
  { Namespace := client.Config.Namespace
    GatewayRelPath := path
    GatewayMethod := P.ToUpper verb
    Action := {
      BackendUrl := "https://" ++ client.Config.Host ++ "/api/v1/namespaces/"
        ++ q.namespace_ ++ "/actions/" ++ q.entityName ++ "?blocking=true"
      BackendMethod := "POST"
      Name := q.entityName
      Namespace := q.namespace_
      Auth := client.Config.AuthToken }
    ApiName := if flags.api.apiname.length > 0 then flags.api.apiname else "/"
    GatewayBasePath := if flags.api.basepath.length > 0 then flags.api.basepath else "/"
    Id := client.Config.Namespace ++ ":" ++
      (if flags.api.basepath.length > 0 then flags.api.basepath else "/")
    GatewayFullPath := "" }

/-! ## The command handlers -/

/-- Modelled from the spec: `checkArgs` is defined elsewhere in the commands
package. The spec says of it that a wrong argument count is a
usage-displaying validation error of the general class, checked by the caller
before the builder runs; it returns nil when the count lies between the two
bounds. The message is the sentence the caller passes. -/
def checkArgs (args : List String) (minimumArgNumber maximumArgNumber : Nat)
    (_commandName requiredArgMsg : String) : Option GoError :=
  if args.length < minimumArgNumber ∨ maximumArgNumber < args.length then
    some (GoError.MakeWskError requiredArgMsg
      ExitCode.EXITCODE_ERR_GENERAL DISPLAY_MSG DISPLAY_USAGE)
  else
    none

/-- The error every handler builds when `parseApi` fails. -/
def parseApiError (P : Platform) (err : Option GoError) : GoError :=
  GoError.MakeWskErrorFromWskError
    (P.Sprintf (P.T "Unable to parse api command arguments: {{.err}}"
      [("err", Value.err err)]))
    err ExitCode.EXITCODE_ERR_GENERAL DISPLAY_MSG DISPLAY_USAGE

/-- The handler `apiCreateCmd.RunE`. -/
def apiCreateCmd (P : Platform) (flags : Flags) (client : Client) (args : List String) :
    Option (List Event × Option GoError) :=
  match checkArgs args 3 3 "Api create"
      "An API path, an API verb, and an action name are required." with
  | some whiskErr => some ([], some whiskErr)
  | none =>
    match parseApi P flags client args with
    | none => none
    | some (calls, _, some err) => some (calls, some (parseApiError P (some err)))
    | some (_, none, none) => none
    | some (calls, some api, none) =>
      match client.Apis.Insert api false with
      | (_, some err) =>
        some (calls ++ [Event.Insert api false],
          some (GoError.MakeWskErrorFromWskError
            (P.Sprintf (P.T "Unable to create api: {{.err}}" [("err", Value.err (some err))]))
            (some err) ExitCode.EXITCODE_ERR_NETWORK DISPLAY_MSG NO_DISPLAY_USAGE))
      | (retApi, none) =>
        some (calls ++ [Event.Insert api false,
            Event.Fprintf
              (P.T "{{.ok}} created api {{.path}} {{.verb}} for action {{.name}}\n{{.fullpath}}\n"
              [("ok", Value.str "ok:"), ("path", Value.str api.GatewayRelPath),
               ("verb", Value.str api.GatewayMethod), ("name", Value.str api.Action.Name),
               ("fullpath", Value.str retApi.GatewayFullPath)])],
          none)

/-- The handler `apiUpdateCmd.RunE`. -/
def apiUpdateCmd (P : Platform) (flags : Flags) (client : Client) (args : List String) :
    Option (List Event × Option GoError) :=
  match checkArgs args 3 3 "Api update"
      "An API path, an API verb, and an action name are required." with
  | some whiskErr => some ([], some whiskErr)
  | none =>
    match parseApi P flags client args with
    | none => none
    | some (calls, _, some err) => some (calls, some (parseApiError P (some err)))
    | some (_, none, none) => none
    | some (calls, some api, none) =>
      match client.Apis.Insert api true with
      | (_, some err) =>
        some (calls ++ [Event.Insert api true],
          some (GoError.MakeWskErrorFromWskError
            (P.Sprintf (P.T "Unable to update api: {{.err}}" [("err", Value.err (some err))]))
            (some err) ExitCode.EXITCODE_ERR_NETWORK DISPLAY_MSG NO_DISPLAY_USAGE))
      | (retApi, none) =>
        some (calls ++ [Event.Insert api true,
            Event.Fprintf
              (P.T "{{.ok}} update api {{.path}} {{.verb}} for action {{.name}}\n{{.fullpath}}\n"
              [("ok", Value.str "ok:"), ("path", Value.str api.GatewayRelPath),
               ("verb", Value.str api.GatewayMethod), ("name", Value.str api.Action.Name),
               ("fullpath", Value.str retApi.GatewayFullPath)])],
          none)

/-- The handler `apiGetCmd.RunE`. -/
def apiGetCmd (P : Platform) (flags : Flags) (client : Client) (args : List String) :
    Option (List Event × Option GoError) :=
  match checkArgs args 2 2 "Api get" "An API path and an API verb are required." with
  | some whiskErr => some ([], some whiskErr)
  | none =>
    match parseApi P flags client args with
    | none => none
    | some (calls, _, some err) => some (calls, some (parseApiError P (some err)))
    | some (_, none, none) => none
    | some (calls, some api, none) =>
      match client.Apis.Get api with
      | (_, some err) =>
        some (calls ++ [Event.Get api],
          some (GoError.MakeWskErrorFromWskError
            (P.Sprintf (P.T "Unable to get api: {{.err}}" [("err", Value.err (some err))]))
            (some err) ExitCode.EXITCODE_ERR_GENERAL DISPLAY_MSG NO_DISPLAY_USAGE))
      | (retApi, none) =>
        if flags.common.summary then
          some (calls ++ [Event.Get api, Event.printSummary api], none)
        else
          some (calls ++ [Event.Get api,
              Event.Fprintf (P.T "{{.ok}} api for path {{.path}} verb {{.verb}}\n"
                [("ok", Value.str "ok:"), ("path", Value.str retApi.GatewayRelPath),
                 ("verb", Value.str retApi.GatewayMethod)]),
              Event.printJSON retApi],
            none)

/-- The handler `apiDeleteCmd.RunE`. -/
def apiDeleteCmd (P : Platform) (flags : Flags) (client : Client) (args : List String) :
    Option (List Event × Option GoError) :=
  match checkArgs args 3 3 "Api get"
      "An API path, an API verb, and an action name are required." with
  | some whiskErr => some ([], some whiskErr)
  | none =>
    match parseApi P flags client args with
    | none => none
    | some (calls, _, some err) => some (calls, some (parseApiError P (some err)))
    | some (_, none, none) => none
    | some (calls, some api, none) =>
      match client.Apis.Delete api with
      | some err =>
        some (calls ++ [Event.Delete api],
          some (GoError.MakeWskErrorFromWskError
            (P.Sprintf (P.T "Unable to delete action: {{.err}}" [("err", Value.err (some err))]))
            (some err) ExitCode.EXITCODE_ERR_GENERAL DISPLAY_MSG NO_DISPLAY_USAGE))
      | none =>
        some (calls ++ [Event.Delete api,
            Event.Fprintf (P.T "{{.ok}} deleted api {{.path}} {{.verb}}\n"
              [("ok", Value.str "ok:"), ("path", Value.str api.GatewayRelPath),
               ("verb", Value.str api.GatewayMethod)])],
          none)

/-- The handler `apiListCmd.RunE`; its positional arguments are not read. -/
def apiListCmd (P : Platform) (flags : Flags) (client : Client) (_args : List String) :
    Option (List Event × Option GoError) :=
  if flags.api.verb ≠ "" ∧ (IsValidApiVerb P flags.api.verb).2 = false then
    some ([], (IsValidApiVerb P flags.api.verb).1)
  else
    let apiListOptions : ApiListOptions :=
      { options := { action := flags.api.action, path := flags.api.path,
                     verb := flags.api.verb },
        limit := flags.common.limit, skip := flags.common.skip, docs := false }
    match client.Apis.List apiListOptions with
    | (_, some err) =>
      some ([Event.List apiListOptions],
        some (GoError.MakeWskErrorFromWskError
          (P.T "Unable to obtain the list of apis: {{.err}}" [("err", Value.err (some err))])
          (some err) ExitCode.EXITCODE_ERR_NETWORK DISPLAY_MSG NO_DISPLAY_USAGE))
    | (apis, none) =>
      some ([Event.List apiListOptions, Event.printList apis], none)

/-! ## Example instances

Concrete collaborators on which the theorems below are instantiated. -/

/-- ASCII upper-casing: what `strings.ToUpper` does to ASCII text. -/
def asciiToUpper (s : String) : String := ⟨s.data.map Char.toUpper⟩

/-- Modelled from the spec: an example of the parser interface
`parse(raw) → (namespace, entityName, error)`, the real `parseQualifiedName`
being defined elsewhere in the commands package. The entity name is what
follows the last `/`, the namespace what precedes it; the empty string is an
error. A string made of separators only has an empty entity name. -/
def exampleParseQualifiedName (name : String) : qualifiedName × Option GoError :=
  if name = "" then
    ({ namespace_ := "", entityName := "" }, some (GoError.foreign "empty name"))
  else
    ({ namespace_ := ⟨((name.data.reverse.dropWhile (fun c => c != '/')).drop 1).reverse⟩,
       entityName := ⟨(name.data.reverse.takeWhile (fun c => c != '/')).reverse⟩ },
     none)

/-- The text of an error as the example renderer prints it: the message it
was constructed with. -/
def GoError.text : GoError → String
  | .foreign text => text
  | .MakeWskError errMsg _ _ _ => errMsg
  | .MakeWskErrorFromWskError errMsg _ _ _ _ => errMsg

/-- The text of a bound value as the example renderer prints it. -/
def Value.text : Value → String
  | .str s => s
  | .keys ks => "[" ++ " ".intercalate ks ++ "]"
  | .err none => "<nil>"
  | .err (some e) => e.text

/-- One pass over a template: where the placeholder of a binding starts, the
text bound to it is written and the placeholder dropped (`skip` counts its
characters still to be dropped); any other character is copied. -/
def renderTemplate (data : List (List Char × List Char)) : Nat → List Char → List Char
  | _, [] => []
  | skip + 1, _ :: cs => renderTemplate data skip cs
  | 0, c :: cs =>
    match data.find? (fun kv => kv.1.isPrefixOf (c :: cs)) with
    | some kv => kv.2 ++ renderTemplate data (kv.1.length - 1) cs
    | none => c :: renderTemplate data 0 cs

/-- Modelled from the spec: an example of the renderer `wski18n.T`, which is
defined in the `wski18n` package. The spec's messages carry the offending raw
string and the underlying cause: the message id is its own text, and each
placeholder, the key between doubled braces after a dot, is replaced by the
text of the value bound to the key. -/
def exampleT (template : String) (data : List (String × Value)) : String :=
  ⟨renderTemplate
    (data.map (fun kv => (("\x7b\x7b." ++ kv.1 ++ "\x7d\x7d").data, kv.2.text.data)))
    0 template.data⟩

/-- The scanner of `exampleSprintf`. Phase 0 copies text up to a percent sign;
phases 1, 2 and 3 read the flags, the width digits and the precision digits
that follow it; the next character is the verb. With no operand a verb `c`
prints as `%!c(MISSING)`, except the percent sign, which prints as itself, and
a format that ends before the verb prints `%!(NOVERB)`. -/
def sprintfScan : Nat → List Char → List Char
  | 0, [] => []
  | _ + 1, [] => "%!(NOVERB)".data
  | 0, c :: cs => if c = '%' then sprintfScan 1 cs else c :: sprintfScan 0 cs
  | n + 1, c :: cs =>
    let phase := n + 1
    if phase = 1 ∧ (c = '#' ∨ c = '0' ∨ c = '+' ∨ c = '-' ∨ c = ' ') then
      sprintfScan 1 cs
    else if phase ≤ 2 ∧ c.isDigit then
      sprintfScan 2 cs
    else if phase ≤ 2 ∧ c = '.' ∧ cs ≠ [] then
      sprintfScan 3 cs
    else if phase = 3 ∧ c.isDigit then
      sprintfScan 3 cs
    else if c = '%' then
      '%' :: sprintfScan 0 cs
    else
      "%!".data ++ c :: "(MISSING)".data ++ sprintfScan 0 cs

/-- An example of Go's `fmt.Sprintf` called with a format and no operand, for
formats without an argument index or a starred width or precision: text is
copied, and every verb, having no operand, is reported as missing. -/
def exampleSprintf (format : String) : String := ⟨sprintfScan 0 format.data⟩

/-- Modelled from the spec: an example platform. The verb table
`whisk.ApiVerbs` is declared in `go-whisk/whisk`; the spec names GET, POST, PUT
and DELETE among its members. -/
def examplePlatform : Platform :=
  { ApiVerbs := ["GET", "POST", "PUT", "DELETE"]
    ToUpper := asciiToUpper
    T := exampleT
    Sprintf := exampleSprintf
    parseQualifiedName := exampleParseQualifiedName }

/-- Example flags: nothing set. -/
def exampleFlags : Flags :=
  { api := { action := "", path := "", verb := "", apiname := "", basepath := "" }
    common := { summary := false, limit := 30, skip := 0 } }

/-- Example configuration. -/
def exampleConfig : Config :=
  { Namespace := "guest", Host := "example.com", AuthToken := "secret" }

/-- An example client whose every remote operation succeeds. -/
def exampleClient : Client :=
  { Config := exampleConfig
    Apis := { Insert := fun api _ => (api, none)
              Get := fun api => (api, none)
              Delete := fun _ => none
              List := fun _ => ([], none) } }

/-- An example client whose every remote operation fails. -/
def failingClient : Client :=
  { Config := exampleConfig
    Apis := { Insert := fun api _ => (api, some (GoError.foreign "connection refused"))
              Get := fun api => (api, some (GoError.foreign "connection refused"))
              Delete := fun _ => some (GoError.foreign "connection refused")
              List := fun _ => ([], some (GoError.foreign "connection refused")) } }

/-- Example flags with the apiname flag set and the basepath flag unset. -/
def namedFlags : Flags :=
  { api := { action := "", path := "", verb := "", apiname := "myapi", basepath := "" }
    common := { summary := false, limit := 30, skip := 0 } }

/-- Example flags with the basepath flag set and the apiname flag unset. -/
def basedFlags : Flags :=
  { api := { action := "", path := "", verb := "", apiname := "", basepath := "/base" }
    common := { summary := false, limit := 30, skip := 0 } }

/-- A handler run that ends in a usage failure before any remote call: it
returns an error constructed with the general exit code and usage display,
and none of the calls it made is a call of the Resource Client. -/
def usageFailure (run : Option (List Event × Option GoError)) : Prop :=
  ∃ calls e, run = some (calls, some e) ∧
    e.exitCode = some ExitCode.EXITCODE_ERR_GENERAL ∧
    e.displayUsage = some DISPLAY_USAGE ∧
    ∀ ev ∈ calls, ev.isClientCall = false

/-! ## Properties -/

/-- A Go string has positive length exactly when it is not the empty string. -/
theorem length_pos_iff_ne_empty (s : String) : s.length > 0 ↔ s ≠ "" := by
  cases s with
  | mk data =>
    cases data with
    | nil => simp [String.length]
    | cons c cs =>
      simp only [String.length, List.length_cons, gt_iff_lt, Nat.zero_lt_succ, true_iff]
      intro h
      exact absurd (congrArg String.data h) (by simp)

/-- `IsValidApiVerb` succeeds exactly when the upper-cased verb is a key of the
table. -/
theorem IsValidApiVerb_ok_iff (P : Platform) (s : String) :
    IsValidApiVerb P s = (none, true) ↔ P.ToUpper s ∈ P.ApiVerbs := by
  unfold IsValidApiVerb
  by_cases h : P.ToUpper s ∈ P.ApiVerbs <;> simp [h]

/-- When `IsValidApiVerb` does not succeed it returns `false` with the error
built by `MakeWskError` with the general exit code and usage display. -/
theorem IsValidApiVerb_fail (P : Platform) (s : String) (h : P.ToUpper s ∉ P.ApiVerbs) :
    IsValidApiVerb P s =
      (some (GoError.MakeWskError
        (P.Sprintf (P.T "'{{.verb}}' is not a valid API verb.  Valid values are: {{.verbs}}"
          [("verb", Value.str s), ("verbs", Value.keys P.ApiVerbs)]))
        ExitCode.EXITCODE_ERR_GENERAL DISPLAY_MSG DISPLAY_USAGE), false) := by
  simp [IsValidApiVerb, h]

/-- When the action block of `parseApi` yields a name, either there are three
arguments and the parser returned that name, non-empty, without error, or
there are not three arguments, the parser was not called and the name is the
zero value. -/
theorem parseApi_qName_inl (P : Platform) (args : List String) (calls : List Event)
    (q : qualifiedName) (h : parseApi.qName P args = some (calls, Sum.inl q)) :
    (args.length = 3 ∧ ∃ action, args[2]? = some action ∧
        P.parseQualifiedName action = (q, none) ∧ q.entityName ≠ "" ∧
        calls = [Event.parseQualifiedName action]) ∨
    (args.length ≠ 3 ∧ q = { namespace_ := "", entityName := "" } ∧ calls = []) := by
  unfold parseApi.qName at h
  by_cases hlen : args.length = 3
  · simp only [hlen, if_true] at h
    cases h2 : args[2]? with
    | none => simp [h2] at h
    | some action =>
      simp only [h2] at h
      rcases hp : P.parseQualifiedName action with ⟨q', e⟩
      simp only [hp] at h
      cases e with
      | some err => simp at h
      | none =>
        by_cases hn : q'.entityName = ""
        · simp [hn] at h
        · simp only [hn, if_false, Option.some.injEq, Prod.mk.injEq, Sum.inl.injEq] at h
          obtain ⟨hc, hq⟩ := h
          subst hc hq
          exact Or.inl ⟨hlen, action, rfl, hp, hn, rfl⟩
  · simp only [hlen, if_false, Option.some.injEq, Prod.mk.injEq, Sum.inl.injEq] at h
    obtain ⟨hc, hq⟩ := h
    subst hc hq
    exact Or.inr ⟨hlen, rfl, rfl⟩

/-- The calls the action block of `parseApi` makes are parser calls. -/
theorem parseApi_qName_calls (P : Platform) (args : List String) (calls : List Event)
    (qe : qualifiedName ⊕ GoError) (h : parseApi.qName P args = some (calls, qe)) :
    ∀ ev ∈ calls, ev.isClientCall = false := by
  unfold parseApi.qName at h
  by_cases hlen : args.length = 3
  · simp only [hlen, if_true] at h
    cases h2 : args[2]? with
    | none => simp [h2] at h
    | some action =>
      simp only [h2] at h
      rcases hp : P.parseQualifiedName action with ⟨q', e⟩
      simp only [hp] at h
      cases e with
      | some err =>
        simp only [Option.some.injEq, Prod.mk.injEq] at h
        obtain ⟨hc, _⟩ := h
        subst hc
        simp [Event.isClientCall]
      | none =>
        by_cases hn : q'.entityName = ""
        · simp only [hn, if_true, Option.some.injEq, Prod.mk.injEq] at h
          obtain ⟨hc, _⟩ := h
          subst hc
          simp [Event.isClientCall]
        · simp only [hn, if_false, Option.some.injEq, Prod.mk.injEq] at h
          obtain ⟨hc, _⟩ := h
          subst hc
          simp [Event.isClientCall]
  · simp only [hlen, if_false, Option.some.injEq, Prod.mk.injEq] at h
    obtain ⟨hc, _⟩ := h
    subst hc
    simp

/-- `parseApi` on a verb the table does not hold: the error of `IsValidApiVerb`
is returned at once, with no collaborator called. -/
theorem parseApi_invalid_verb (P : Platform) (flags : Flags) (client : Client)
    (args : List String) (verb : String) (h1 : args[1]? = some verb)
    (hv : P.ToUpper verb ∉ P.ApiVerbs) :
    parseApi P flags client args = some ([], none, (IsValidApiVerb P verb).1) := by
  simp [parseApi, h1, IsValidApiVerb_fail P verb hv]

/-- `parseApi` on a verb the table holds: the outcome of the action block
decides, and a resolved name gives the assembled resource. -/
theorem parseApi_valid_verb (P : Platform) (flags : Flags) (client : Client)
    (args : List String) (verb : String) (h1 : args[1]? = some verb)
    (hv : P.ToUpper verb ∈ P.ApiVerbs) :
    parseApi P flags client args =
      match parseApi.qName P args with
      | none => none
      | some (calls, Sum.inr whiskErr) => some (calls, none, some whiskErr)
      | some (calls, Sum.inl q) =>
        match args[0]? with
        | none => none
        | some path => some (calls, some (builtApi P flags client path verb q), none) := by
  simp only [parseApi, h1, (IsValidApiVerb_ok_iff P verb).2 hv, builtApi]
  rfl

/-- Every successful `parseApi` call had a path, a verb that `IsValidApiVerb`
accepts and an action block that yielded a name, and returns the resource
assembled from them. -/
theorem parseApi_success (P : Platform) (flags : Flags) (client : Client)
    (args : List String) (calls : List Event) (api : Api) (r : Option GoError)
    (h : parseApi P flags client args = some (calls, some api, r)) :
    ∃ path verb q, args[0]? = some path ∧ args[1]? = some verb ∧
      P.ToUpper verb ∈ P.ApiVerbs ∧
      parseApi.qName P args = some (calls, Sum.inl q) ∧
      api = builtApi P flags client path verb q ∧ r = none := by
  cases h1 : args[1]? with
  | none => simp [parseApi, h1] at h
  | some verb =>
    by_cases hv : P.ToUpper verb ∈ P.ApiVerbs
    · rw [parseApi_valid_verb P flags client args verb h1 hv] at h
      cases hq : parseApi.qName P args with
      | none => simp [hq] at h
      | some res =>
        rcases res with ⟨calls', qe⟩
        cases qe with
        | inr e => simp [hq] at h
        | inl q =>
          cases h0 : args[0]? with
          | none => simp [hq, h0] at h
          | some path =>
            simp only [hq, h0, Option.some.injEq, Prod.mk.injEq] at h
            obtain ⟨hc, ha, hr⟩ := h
            subst hc
            exact ⟨path, verb, q, rfl, rfl, hv, rfl, ha.symm, hr.symm⟩
    · rw [parseApi_invalid_verb P flags client args verb h1 hv] at h
      simp at h

/-- The calls `parseApi` makes are calls of the qualified-name parser, never of
the Resource Client. -/
theorem parseApi_calls (P : Platform) (flags : Flags) (client : Client)
    (args : List String) (calls : List Event) (res : Option Api × Option GoError)
    (h : parseApi P flags client args = some (calls, res)) :
    ∀ ev ∈ calls, ev.isClientCall = false := by
  cases h1 : args[1]? with
  | none => simp [parseApi, h1] at h
  | some verb =>
    by_cases hv : P.ToUpper verb ∈ P.ApiVerbs
    · rw [parseApi_valid_verb P flags client args verb h1 hv] at h
      cases hq : parseApi.qName P args with
      | none => simp [hq] at h
      | some res' =>
        rcases res' with ⟨calls', qe⟩
        have hcalls := parseApi_qName_calls P args calls' qe hq
        cases qe with
        | inr e =>
          simp only [hq, Option.some.injEq, Prod.mk.injEq] at h
          obtain ⟨hc, _⟩ := h
          subst hc
          exact hcalls
        | inl q =>
          cases h0 : args[0]? with
          | none => simp [hq, h0] at h
          | some path =>
            simp only [hq, h0, Option.some.injEq, Prod.mk.injEq] at h
            obtain ⟨hc, _⟩ := h
            subst hc
            exact hcalls
    · rw [parseApi_invalid_verb P flags client args verb h1 hv] at h
      simp only [Option.some.injEq, Prod.mk.injEq] at h
      obtain ⟨hc, _⟩ := h
      subst hc
      simp

/-- `parseApi` returns a resource or an error, never a nil resource with a nil
error. -/
theorem parseApi_result (P : Platform) (flags : Flags) (client : Client)
    (args : List String) (calls : List Event) :
    parseApi P flags client args ≠ some (calls, none, none) := by
  intro h
  cases h1 : args[1]? with
  | none => simp [parseApi, h1] at h
  | some verb =>
    by_cases hv : P.ToUpper verb ∈ P.ApiVerbs
    · rw [parseApi_valid_verb P flags client args verb h1 hv] at h
      cases hq : parseApi.qName P args with
      | none => simp [hq] at h
      | some res' =>
        rcases res' with ⟨calls', qe⟩
        cases qe with
        | inr e => simp [hq] at h
        | inl q =>
          cases h0 : args[0]? with
          | none => simp [hq, h0] at h
          | some path => simp [hq, h0] at h
    · rw [parseApi_invalid_verb P flags client args verb h1 hv] at h
      simp [IsValidApiVerb_fail P verb hv] at h

/-- C2: for args `[path, verb, action]` with a verb `IsValidApiVerb` accepts and
an action the parser resolves without error to a non-empty entity name,
`parseApi` returns a resource and a nil error after one parser call, with
`GatewayRelPath` the path verbatim, `GatewayMethod` the upper-cased verb,
`Action.Name` and `Action.Namespace` the parsed parts and
`Action.BackendMethod` "POST". -/
theorem parseApi_three_args (P : Platform) (flags : Flags) (client : Client)
    (path verb action : String) (q : qualifiedName)
    (hverb : IsValidApiVerb P verb = (none, true))
    (hparse : P.parseQualifiedName action = (q, none))
    (hname : q.entityName ≠ "") :
    ∃ api, parseApi P flags client [path, verb, action]
        = some ([Event.parseQualifiedName action], some api, none) ∧
      api.GatewayRelPath = path ∧
      api.GatewayMethod = P.ToUpper verb ∧
      api.Action.Name = q.entityName ∧
      api.Action.Namespace = q.namespace_ ∧
      api.Action.BackendMethod = "POST" := by
  simp [parseApi, parseApi.qName, hverb, hparse, hname]

/-- C2 on its example: args foo/bar, get, myaction give path "foo/bar", method
"GET", action name "myaction" and backend method "POST". -/
theorem parseApi_three_args_witness :
    ∃ api, parseApi examplePlatform exampleFlags exampleClient ["foo/bar", "get", "myaction"]
        = some ([Event.parseQualifiedName "myaction"], some api, none) ∧
      api.GatewayRelPath = "foo/bar" ∧
      api.GatewayMethod = "GET" ∧
      api.Action.Name = "myaction" ∧
      api.Action.Namespace = "" ∧
      api.Action.BackendMethod = "POST" :=
  parseApi_three_args examplePlatform exampleFlags exampleClient "foo/bar" "get" "myaction"
    { namespace_ := "", entityName := "myaction" } rfl rfl (by decide)

/-- C3: for args `[path, verb]` with a verb `IsValidApiVerb` accepts, `parseApi`
returns a resource and a nil error without any call of the qualified-name
parser, and the bound action has an empty name and an empty namespace. -/
theorem parseApi_two_args (P : Platform) (flags : Flags) (client : Client)
    (path verb : String) (hverb : IsValidApiVerb P verb = (none, true)) :
    ∃ api, parseApi P flags client [path, verb] = some ([], some api, none) ∧
      api.Action.Name = "" ∧ api.Action.Namespace = "" := by
  simp [parseApi, parseApi.qName, hverb]

/-- C3 on its example: args foo/bar, GET. -/
theorem parseApi_two_args_witness :
    ∃ api, parseApi examplePlatform exampleFlags exampleClient ["foo/bar", "GET"]
        = some ([], some api, none) ∧
      api.Action.Name = "" ∧ api.Action.Namespace = "" :=
  parseApi_two_args examplePlatform exampleFlags exampleClient "foo/bar" "GET" rfl

/-- What `parseApi` returns for args `[path, verb, action]` with a valid verb
when the parser returns no error but an empty entity name: no resource, and
the error built with a nil cause, the general exit code and usage display,
whose text is `fmt.Sprintf` applied to the rendering of the "not a valid
action name" message with the raw third argument bound to its name. -/
theorem parseApi_empty_entity (P : Platform) (flags : Flags) (client : Client)
    (path verb action : String) (q : qualifiedName)
    (hverb : IsValidApiVerb P verb = (none, true))
    (hparse : P.parseQualifiedName action = (q, none))
    (hname : q.entityName = "") :
    parseApi P flags client [path, verb, action]
      = some ([Event.parseQualifiedName action], none,
          some (GoError.MakeWskErrorFromWskError
            (P.Sprintf (P.T "'{{.name}}' is not a valid action name."
              [("name", Value.str action)]))
            none ExitCode.EXITCODE_ERR_GENERAL DISPLAY_MSG DISPLAY_USAGE)) := by
  simp [parseApi, parseApi.qName, hverb, hparse, hname]

/-- C4 fails on an action that holds a percent sign: for the action "%d/",
which the example parser resolves without error to an empty entity name,
`parseApi` returns no resource and a usage-displaying general error, as the
claim says, but the message, having gone through `fmt.Sprintf` as a format,
reads "'%!d(MISSING)/' is not a valid action name." and does not show the raw
argument; for the action "/" the message shows the raw argument. -/
theorem parseApi_empty_entity_percent :
    (∃ e, parseApi examplePlatform exampleFlags exampleClient ["foo/bar", "get", "%d/"]
        = some ([Event.parseQualifiedName "%d/"], none, some e) ∧
      e.exitCode = some ExitCode.EXITCODE_ERR_GENERAL ∧
      e.displayUsage = some DISPLAY_USAGE ∧
      e.message = some "'%!d(MISSING)/' is not a valid action name." ∧
      e.message ≠ some "'%d/' is not a valid action name.") ∧
    (∃ e, parseApi examplePlatform exampleFlags exampleClient ["foo/bar", "get", "/"]
        = some ([Event.parseQualifiedName "/"], none, some e) ∧
      e.message = some "'/' is not a valid action name.") :=
  ⟨⟨_, parseApi_empty_entity examplePlatform exampleFlags exampleClient "foo/bar" "get" "%d/"
        { namespace_ := "%d", entityName := "" } rfl rfl rfl,
      rfl, rfl, rfl, by decide⟩,
   ⟨_, parseApi_empty_entity examplePlatform exampleFlags exampleClient "foo/bar" "get" "/"
        { namespace_ := "", entityName := "" } rfl rfl rfl,
      rfl⟩⟩

/-- C5: in every successful `parseApi` call the bound action's `BackendUrl` is
"https://" + host + "/api/v1/namespaces/" + ns + "/actions/" + act +
"?blocking=true", where ns and act are the action's namespace and name: the
parts the parser returned for the third of three arguments, or both empty
when there are not three arguments. -/
theorem parseApi_backendUrl (P : Platform) (flags : Flags) (client : Client)
    (args : List String) (calls : List Event) (api : Api) (r : Option GoError)
    (h : parseApi P flags client args = some (calls, some api, r)) :
    api.Action.BackendUrl = "https://" ++ client.Config.Host ++ "/api/v1/namespaces/"
      ++ api.Action.Namespace ++ "/actions/" ++ api.Action.Name ++ "?blocking=true" ∧
    ((args.length = 3 ∧ ∃ action q, args[2]? = some action ∧
        P.parseQualifiedName action = (q, none) ∧
        api.Action.Namespace = q.namespace_ ∧ api.Action.Name = q.entityName) ∨
     (args.length ≠ 3 ∧ api.Action.Namespace = "" ∧ api.Action.Name = "")) := by
  obtain ⟨path, verb, q, _, _, _, hq, hapi, _⟩ := parseApi_success P flags client args calls api r h
  subst hapi
  refine ⟨rfl, ?_⟩
  rcases parseApi_qName_inl P args calls q hq with ⟨hlen, action, h2, hp, _, _⟩ | ⟨hlen, hz, _⟩
  · exact Or.inl ⟨hlen, action, q, h2, hp, rfl, rfl⟩
  · subst hz
    exact Or.inr ⟨hlen, rfl, rfl⟩

/-- C5 on its example: host example.com, namespace ns, action act. -/
theorem parseApi_backendUrl_witness :
    ∃ api, parseApi examplePlatform exampleFlags exampleClient ["foo/bar", "get", "ns/act"]
        = some ([Event.parseQualifiedName "ns/act"], some api, none) ∧
      api.Action.BackendUrl
        = "https://example.com/api/v1/namespaces/ns/actions/act?blocking=true" :=
  ⟨_, rfl,
    (parseApi_backendUrl examplePlatform exampleFlags exampleClient
      ["foo/bar", "get", "ns/act"] [Event.parseQualifiedName "ns/act"] _ none rfl).1⟩

/-- C6: in every successful `parseApi` call `ApiName` is "/" when the apiname
flag is empty and the flag value otherwise, and `GatewayBasePath` is "/" when
the basepath flag is empty and the flag value otherwise; each field is decided
by its own flag alone. -/
theorem parseApi_flag_defaults (P : Platform) (flags : Flags) (client : Client)
    (args : List String) (calls : List Event) (api : Api) (r : Option GoError)
    (h : parseApi P flags client args = some (calls, some api, r)) :
    (flags.api.apiname = "" → api.ApiName = "/") ∧
    (flags.api.apiname ≠ "" → api.ApiName = flags.api.apiname) ∧
    (flags.api.basepath = "" → api.GatewayBasePath = "/") ∧
    (flags.api.basepath ≠ "" → api.GatewayBasePath = flags.api.basepath) := by
  obtain ⟨path, verb, q, _, _, _, _, hapi, _⟩ := parseApi_success P flags client args calls api r h
  subst hapi
  refine ⟨fun hn => ?_, fun hn => ?_, fun hb => ?_, fun hb => ?_⟩
  · simp [builtApi, hn]
  · simp [builtApi, (length_pos_iff_ne_empty _).2 hn]
  · simp [builtApi, hb]
  · simp [builtApi, (length_pos_iff_ne_empty _).2 hb]

/-- C6 on examples: no flag gives "/" twice; the apiname flag alone changes
`ApiName` only; the basepath flag alone changes `GatewayBasePath` only. -/
theorem parseApi_flag_defaults_witness :
    (∃ api, parseApi examplePlatform exampleFlags exampleClient ["foo/bar", "GET"]
        = some ([], some api, none) ∧ api.ApiName = "/" ∧ api.GatewayBasePath = "/") ∧
    (∃ api, parseApi examplePlatform namedFlags exampleClient ["foo/bar", "GET"]
        = some ([], some api, none) ∧ api.ApiName = "myapi" ∧ api.GatewayBasePath = "/") ∧
    (∃ api, parseApi examplePlatform basedFlags exampleClient ["foo/bar", "GET"]
        = some ([], some api, none) ∧ api.ApiName = "/" ∧ api.GatewayBasePath = "/base") :=
  ⟨⟨_, rfl,
    (parseApi_flag_defaults examplePlatform exampleFlags exampleClient ["foo/bar", "GET"] []
        _ none rfl).1 rfl,
    (parseApi_flag_defaults examplePlatform exampleFlags exampleClient ["foo/bar", "GET"] []
        _ none rfl).2.2.1 rfl⟩,
   ⟨_, rfl,
    (parseApi_flag_defaults examplePlatform namedFlags exampleClient ["foo/bar", "GET"] []
        _ none rfl).2.1 (by decide),
    (parseApi_flag_defaults examplePlatform namedFlags exampleClient ["foo/bar", "GET"] []
        _ none rfl).2.2.1 rfl⟩,
   ⟨_, rfl,
    (parseApi_flag_defaults examplePlatform basedFlags exampleClient ["foo/bar", "GET"] []
        _ none rfl).1 rfl,
    (parseApi_flag_defaults examplePlatform basedFlags exampleClient ["foo/bar", "GET"] []
        _ none rfl).2.2.2 (by decide)⟩⟩

/-- C7: in every successful `parseApi` call `Id` is the configured namespace,
":" and `GatewayBasePath` (the basepath flag, or "/" when it is empty), and
`Namespace` is the configured namespace; so any other successful call with the
same configured namespace and basepath flag has the same `Id`, whatever its
path, verb, action and apiname flag. -/
theorem parseApi_id (P : Platform) (flags : Flags) (client : Client)
    (args : List String) (calls : List Event) (api : Api) (r : Option GoError)
    (h : parseApi P flags client args = some (calls, some api, r)) :
    api.Id = client.Config.Namespace ++ ":" ++ api.GatewayBasePath ∧
    api.GatewayBasePath = (if flags.api.basepath = "" then "/" else flags.api.basepath) ∧
    api.Namespace = client.Config.Namespace ∧
    ∀ (P2 : Platform) (flags2 : Flags) (client2 : Client) (args2 : List String)
      (calls2 : List Event) (api2 : Api) (r2 : Option GoError),
      parseApi P2 flags2 client2 args2 = some (calls2, some api2, r2) →
      client2.Config.Namespace = client.Config.Namespace →
      flags2.api.basepath = flags.api.basepath →
      api2.Id = api.Id := by
  obtain ⟨path, verb, q, _, _, _, _, hapi, _⟩ := parseApi_success P flags client args calls api r h
  subst hapi
  refine ⟨rfl, ?_, rfl, ?_⟩
  · by_cases hb : flags.api.basepath = ""
    · simp [builtApi, hb]
    · simp [builtApi, hb, (length_pos_iff_ne_empty _).2 hb]
  · intro P2 flags2 client2 args2 calls2 api2 r2 h2 hns hbp
    obtain ⟨path2, verb2, q2, _, _, _, _, hapi2, _⟩ :=
      parseApi_success P2 flags2 client2 args2 calls2 api2 r2 h2
    subst hapi2
    simp [builtApi, hns, hbp]

/-- C7 on an example: the identifier is "guest:/", and a second call with
another path, verb, action and apiname flag has the same identifier. -/
theorem parseApi_id_witness :
    ∃ api api2,
      parseApi examplePlatform exampleFlags exampleClient ["foo/bar", "GET"]
        = some ([], some api, none) ∧
      parseApi examplePlatform namedFlags failingClient ["other", "post", "ns/act"]
        = some ([Event.parseQualifiedName "ns/act"], some api2, none) ∧
      api.Id = "guest:/" ∧ api.Namespace = "guest" ∧ api2.Id = api.Id :=
  ⟨_, _, rfl, rfl,
   (parseApi_id examplePlatform exampleFlags exampleClient ["foo/bar", "GET"] []
      _ none rfl).1,
   (parseApi_id examplePlatform exampleFlags exampleClient ["foo/bar", "GET"] []
      _ none rfl).2.2.1,
   (parseApi_id examplePlatform exampleFlags exampleClient ["foo/bar", "GET"] []
      _ none rfl).2.2.2 examplePlatform namedFlags failingClient ["other", "post", "ns/act"]
      [Event.parseQualifiedName "ns/act"] _ none rfl rfl rfl⟩

/-- The argument-count check refuses exactly the argument lists whose length
is not the required one, with a usage-displaying general error. -/
theorem checkArgs_exact (args : List String) (n : Nat) (name msg : String) :
    (args.length = n → checkArgs args n n name msg = none) ∧
    (args.length ≠ n → checkArgs args n n name msg =
      some (GoError.MakeWskError msg ExitCode.EXITCODE_ERR_GENERAL
        DISPLAY_MSG DISPLAY_USAGE)) := by
  constructor
  · intro h
    simp [checkArgs, h]
  · intro h
    have : args.length < n ∨ n < args.length := Nat.lt_or_gt_of_ne h
    simp [checkArgs, this]

/-- What each handler returns when `parseApi` has produced the resource `api`
and the Resource Client then answers with the error `err`: create, update
and list construct the error with the network exit code, get and delete with
the general one; all five disable usage display. -/
theorem remote_failure_classes (P : Platform) (flags : Flags) (client : Client)
    (args : List String) (calls : List Event) (api ret : Api) (err : GoError)
    (h : parseApi P flags client args = some (calls, some api, none)) :
    (args.length = 3 → client.Apis.Insert api false = (ret, some err) →
      ∃ e, apiCreateCmd P flags client args = some (calls ++ [Event.Insert api false], some e) ∧
        e.exitCode = some ExitCode.EXITCODE_ERR_NETWORK ∧
        e.displayUsage = some NO_DISPLAY_USAGE) ∧
    (args.length = 3 → client.Apis.Insert api true = (ret, some err) →
      ∃ e, apiUpdateCmd P flags client args = some (calls ++ [Event.Insert api true], some e) ∧
        e.exitCode = some ExitCode.EXITCODE_ERR_NETWORK ∧
        e.displayUsage = some NO_DISPLAY_USAGE) ∧
    (args.length = 2 → client.Apis.Get api = (ret, some err) →
      ∃ e, apiGetCmd P flags client args = some (calls ++ [Event.Get api], some e) ∧
        e.exitCode = some ExitCode.EXITCODE_ERR_GENERAL ∧
        e.displayUsage = some NO_DISPLAY_USAGE) ∧
    (args.length = 3 → client.Apis.Delete api = some err →
      ∃ e, apiDeleteCmd P flags client args = some (calls ++ [Event.Delete api], some e) ∧
        e.exitCode = some ExitCode.EXITCODE_ERR_GENERAL ∧
        e.displayUsage = some NO_DISPLAY_USAGE) := by
  refine ⟨fun hlen hc => ?_, fun hlen hc => ?_, fun hlen hc => ?_, fun hlen hc => ?_⟩
  · simp only [apiCreateCmd, (checkArgs_exact args 3 _ _).1 hlen, h, hc]
    exact ⟨_, rfl, rfl, rfl⟩
  · simp only [apiUpdateCmd, (checkArgs_exact args 3 _ _).1 hlen, h, hc]
    exact ⟨_, rfl, rfl, rfl⟩
  · simp only [apiGetCmd, (checkArgs_exact args 2 _ _).1 hlen, h, hc]
    exact ⟨_, rfl, rfl, rfl⟩
  · simp only [apiDeleteCmd, (checkArgs_exact args 3 _ _).1 hlen, h, hc]
    exact ⟨_, rfl, rfl, rfl⟩

/-- When the verb filter of the list handler is empty or accepted and the
Resource Client answers with an error, the handler constructs its error with
the network exit code and without usage display. -/
theorem list_remote_failure (P : Platform) (flags : Flags) (client : Client)
    (args : List String) (apis : List Api) (err : GoError)
    (hverb : flags.api.verb = "" ∨ IsValidApiVerb P flags.api.verb = (none, true))
    (hc : client.Apis.List
        { options := { action := flags.api.action, path := flags.api.path,
                       verb := flags.api.verb },
          limit := flags.common.limit, skip := flags.common.skip, docs := false }
      = (apis, some err)) :
    ∃ calls e, apiListCmd P flags client args = some (calls, some e) ∧
      e.exitCode = some ExitCode.EXITCODE_ERR_NETWORK ∧
      e.displayUsage = some NO_DISPLAY_USAGE := by
  rcases hverb with hv | hv
  · rw [hv] at hc
    simp only [apiListCmd, hv, ne_eq, not_true_eq_false, false_and, if_false, hc]
    exact ⟨_, _, rfl, rfl, rfl⟩
  · simp only [apiListCmd, hv, Bool.true_eq_false, and_false, if_false, hc]
    exact ⟨_, _, rfl, rfl, rfl⟩

/-- C8 fails on the get and delete handlers: with valid arguments and a
Resource Client that answers with an error, `apiGetCmd` and `apiDeleteCmd`
return an error constructed with the general exit code, not the network one
(usage display is disabled, as the claim says). -/
theorem get_delete_remote_failure_general :
    (∃ api e, apiGetCmd examplePlatform exampleFlags failingClient ["foo/bar", "GET"]
        = some ([Event.Get api], some e) ∧
      e.exitCode = some ExitCode.EXITCODE_ERR_GENERAL ∧
      e.exitCode ≠ some ExitCode.EXITCODE_ERR_NETWORK ∧
      e.displayUsage = some NO_DISPLAY_USAGE) ∧
    (∃ api e, apiDeleteCmd examplePlatform exampleFlags failingClient
          ["foo/bar", "GET", "myaction"]
        = some ([Event.parseQualifiedName "myaction", Event.Delete api], some e) ∧
      e.exitCode = some ExitCode.EXITCODE_ERR_GENERAL ∧
      e.exitCode ≠ some ExitCode.EXITCODE_ERR_NETWORK ∧
      e.displayUsage = some NO_DISPLAY_USAGE) :=
  ⟨⟨_, _, rfl, rfl, by decide, rfl⟩, ⟨_, _, rfl, rfl, by decide, rfl⟩⟩

/-- A run that returns the error of the argument-count check, having called
nothing, is a usage failure. -/
theorem usageFailure_of_count (run : Option (List Event × Option GoError)) (msg : String)
    (h : run = some ([], some (GoError.MakeWskError msg ExitCode.EXITCODE_ERR_GENERAL
      DISPLAY_MSG DISPLAY_USAGE))) : usageFailure run :=
  ⟨[], _, h, rfl, rfl, by simp⟩

/-- A run that returns the wrapped error of `parseApi`, having made only the
calls of `parseApi`, is a usage failure. -/
theorem usageFailure_of_parse (P : Platform) (run : Option (List Event × Option GoError))
    (calls : List Event) (err : GoError)
    (hcalls : ∀ ev ∈ calls, ev.isClientCall = false)
    (h : run = some (calls, some (parseApiError P (some err)))) : usageFailure run :=
  ⟨calls, _, h, rfl, rfl, hcalls⟩

/-- C9: in the create, update and delete handlers (three arguments required)
and in the get handler (two required), whenever the argument count is wrong
or `parseApi` returns an error, the handler returns an error constructed with
the general exit code and usage display, and no call of the Resource Client
is among the calls of that run. -/
theorem handlers_fail_before_client (P : Platform) (flags : Flags) (client : Client)
    (args : List String) :
    ((args.length ≠ 3 ∨
        ∃ calls r err, parseApi P flags client args = some (calls, r, some err)) →
      usageFailure (apiCreateCmd P flags client args) ∧
      usageFailure (apiUpdateCmd P flags client args) ∧
      usageFailure (apiDeleteCmd P flags client args)) ∧
    ((args.length ≠ 2 ∨
        ∃ calls r err, parseApi P flags client args = some (calls, r, some err)) →
      usageFailure (apiGetCmd P flags client args)) := by
  constructor
  · intro h
    by_cases hlen : args.length = 3
    · rcases h with h | ⟨calls, r, err, hp⟩
      · exact absurd hlen h
      · have hcalls := parseApi_calls P flags client args calls (r, some err) hp
        refine ⟨usageFailure_of_parse P _ calls err hcalls ?_,
          usageFailure_of_parse P _ calls err hcalls ?_,
          usageFailure_of_parse P _ calls err hcalls ?_⟩
        · simp only [apiCreateCmd, (checkArgs_exact args 3 _ _).1 hlen, hp]
        · simp only [apiUpdateCmd, (checkArgs_exact args 3 _ _).1 hlen, hp]
        · simp only [apiDeleteCmd, (checkArgs_exact args 3 _ _).1 hlen, hp]
    · refine ⟨usageFailure_of_count _
          "An API path, an API verb, and an action name are required." ?_,
        usageFailure_of_count _
          "An API path, an API verb, and an action name are required." ?_,
        usageFailure_of_count _
          "An API path, an API verb, and an action name are required." ?_⟩
      · simp only [apiCreateCmd, (checkArgs_exact args 3 _ _).2 hlen]
      · simp only [apiUpdateCmd, (checkArgs_exact args 3 _ _).2 hlen]
      · simp only [apiDeleteCmd, (checkArgs_exact args 3 _ _).2 hlen]
  · intro h
    by_cases hlen : args.length = 2
    · rcases h with h | ⟨calls, r, err, hp⟩
      · exact absurd hlen h
      · have hcalls := parseApi_calls P flags client args calls (r, some err) hp
        refine usageFailure_of_parse P _ calls err hcalls ?_
        simp only [apiGetCmd, (checkArgs_exact args 2 _ _).1 hlen, hp]
    · refine usageFailure_of_count _ "An API path and an API verb are required." ?_
      simp only [apiGetCmd, (checkArgs_exact args 2 _ _).2 hlen]

/-- C9 on examples: the unknown verb FETCH stops create, update and delete, and
a single argument stops get, each before any remote call. -/
theorem handlers_fail_before_client_witness :
    (usageFailure (apiCreateCmd examplePlatform exampleFlags exampleClient
        ["foo/bar", "FETCH", "myaction"]) ∧
      usageFailure (apiUpdateCmd examplePlatform exampleFlags exampleClient
        ["foo/bar", "FETCH", "myaction"]) ∧
      usageFailure (apiDeleteCmd examplePlatform exampleFlags exampleClient
        ["foo/bar", "FETCH", "myaction"])) ∧
    usageFailure (apiGetCmd examplePlatform exampleFlags exampleClient ["foo/bar"]) :=
  ⟨(handlers_fail_before_client examplePlatform exampleFlags exampleClient
      ["foo/bar", "FETCH", "myaction"]).1 (Or.inr ⟨_, _, _, rfl⟩),
   (handlers_fail_before_client examplePlatform exampleFlags exampleClient
      ["foo/bar"]).2 (Or.inl (by decide))⟩

/-- C10: if `parseApi` returns a resource, its `GatewayMethod` is a key of the
verb table and is the upper-cased `args[1]`; and if the upper-cased `args[1]`
is not a key of the table, `parseApi` returns no resource and the error of
`IsValidApiVerb`, having called nothing: the action argument is not parsed. -/
theorem parseApi_method_in_verbs (P : Platform) (flags : Flags) (client : Client)
    (args : List String) :
    (∀ calls api r, parseApi P flags client args = some (calls, some api, r) →
      api.GatewayMethod ∈ P.ApiVerbs ∧
      ∃ verb, args[1]? = some verb ∧ api.GatewayMethod = P.ToUpper verb) ∧
    (∀ verb, args[1]? = some verb → P.ToUpper verb ∉ P.ApiVerbs →
      ∃ e, parseApi P flags client args = some ([], none, some e) ∧
        IsValidApiVerb P verb = (some e, false)) := by
  constructor
  · intro calls api r h
    obtain ⟨path, verb, q, _, h1, hv, _, hapi, _⟩ :=
      parseApi_success P flags client args calls api r h
    subst hapi
    exact ⟨hv, verb, h1, rfl⟩
  · intro verb h1 hv
    refine ⟨_, ?_, IsValidApiVerb_fail P verb hv⟩
    rw [parseApi_invalid_verb P flags client args verb h1 hv, IsValidApiVerb_fail P verb hv]

/-- C10 on examples: args foo/bar, get, myaction give the method "GET", a key
of the table; the unknown verb FETCH with the malformed action "" gives the
invalid-verb error and no parser call. -/
theorem parseApi_method_in_verbs_witness :
    (∃ api, parseApi examplePlatform exampleFlags exampleClient ["foo/bar", "get", "myaction"]
        = some ([Event.parseQualifiedName "myaction"], some api, none) ∧
      api.GatewayMethod = "GET" ∧ api.GatewayMethod ∈ examplePlatform.ApiVerbs) ∧
    (∃ e, parseApi examplePlatform exampleFlags exampleClient ["foo/bar", "FETCH", ""]
        = some ([], none, some e) ∧
      IsValidApiVerb examplePlatform "FETCH" = (some e, false)) :=
  ⟨⟨_, rfl, rfl,
    ((parseApi_method_in_verbs examplePlatform exampleFlags exampleClient
      ["foo/bar", "get", "myaction"]).1 _ _ none rfl).1⟩,
   (parseApi_method_in_verbs examplePlatform exampleFlags exampleClient
      ["foo/bar", "FETCH", ""]).2 "FETCH" rfl (by decide)⟩

end Whisk
